import Mathlib

/-!
Shallow embedding of the core of the `shape-core-sse` service broker
(`mpcm-service`): the Service Registry (`mpcm-core/src/registry/mod.rs`),
the Request Router (`mpcm-core/src/registry/router.rs`), and the two
connection-server variants (`mpcm-server/src/server.rs`,
`mpcm-server/src/server_v2.rs` with `handlers_v2.rs` and `protocol.rs`).

Rust `HashMap`s holding registry state are modelled as association lists
(`List (String × _)`); `async` methods returning `anyhow::Result<T>` become
pure functions returning `Except String T` together with the updated state.
Provider trait objects (`dyn ServiceProvider`) become records of their
observable behaviours.
-/

namespace ShapeCore

/-- JSON values (`serde_json::Value`), with numbers restricted to the
integers actually used by the embedded code paths. -/
inductive Json where
  | null : Json
  | bool : Bool → Json
  | num : Int → Json
  | str : String → Json
  | arr : List Json → Json
  | obj : List (String × Json) → Json

/-- Rust `ServiceCapability` from `registry/mod.rs`. -/
structure ServiceCapability where
  name : String
  description : String
  input_schema : Option Json
  output_schema : Option Json

/-- Rust `ServiceCommand` from `registry/mod.rs`. -/
structure ServiceCommand where
  tool : String
  args : Json
  project_name : Option String
  role_id : Option String
  context : Option (List (String × Json))
  store_result : Option Bool

/-- Rust `ServiceResult` from `registry/mod.rs`. -/
structure ServiceResult where
  success : Bool
  data : Option Json
  error : Option String
  metadata : Option (List (String × Json))

/-- Rust `ServiceStatus` from `registry/mod.rs`. -/
inductive ServiceStatus where
  | Active : ServiceStatus
  | Inactive : ServiceStatus
  | Error : ServiceStatus
deriving DecidableEq

/-- Behavioural model of a `dyn ServiceProvider` trait object: each trait
method that the registry calls is one field recording its outcome. -/
structure Provider where
  name : String
  description : String
  initResult : Except String Unit
  capResult : Except String (List ServiceCapability)
  execute : ServiceCommand → Except String ServiceResult
  healthCheck : Except String Unit

/-- Rust `ServiceRegistration` from `registry/mod.rs`; timestamps are abstract
`Nat` instants supplied by the caller (`Utc::now()`). -/
structure ServiceRegistration where
  name : String
  capabilities : List ServiceCapability
  status : ServiceStatus
  last_error : Option String
  registered_at : Nat
  last_health_check : Option Nat

/-- The two `HashMap`s inside `ServiceRegistry` (`services` and
`metadata`), as association lists keyed by provider name. -/
structure RegistryState where
  services : List (String × Provider)
  metadata : List (String × ServiceRegistration)

/-- Update the value stored under key `k`, leaving other keys (and a
missing key) alone — models `HashMap::get_mut` followed by field updates. -/
def updateValue {α : Type} (l : List (String × α)) (k : String) (f : α → α) :
    List (String × α) :=
  l.map (fun p => if p.1 = k then (p.1, f p.2) else p)

/-- Remove the entry stored under key `k` — models `HashMap::remove`. -/
def removeKey {α : Type} (l : List (String × α)) (k : String) :
    List (String × α) :=
  l.filter (fun p => p.1 ≠ k)

/-- Look up a key in an association list — models `HashMap::get`. -/
def lookupKey {α : Type} (l : List (String × α)) (k : String) : Option α :=
  match l with
  | [] => none
  | p :: rest => if p.1 = k then some p.2 else lookupKey rest k

namespace ServiceRegistry

/-- Rust `ServiceRegistry::register` (`registry/mod.rs`): reject duplicate
names, run the provider's `initialize` hook, fetch capabilities, then
insert the provider and a fresh Active registration. The state is
returned unchanged on every error path. -/
def register (st : RegistryState) (provider : Provider) (now : Nat) :
    RegistryState × Except String Unit :=
  let name := provider.name
  if (lookupKey st.services name).isSome then
    (st, .error ("Service " ++ name ++ " is already registered"))
  else
    match provider.initResult with
    | .error e => (st, .error e)
    | .ok _ =>
      match provider.capResult with
      | .error e => (st, .error e)
      | .ok capabilities =>
        ({ services := st.services ++ [(name, provider)],
           metadata := st.metadata ++ [(name,
             { name := name, capabilities := capabilities,
               status := .Active, last_error := none,
               registered_at := now, last_health_check := none })] },
         .ok ())

/-- Rust `ServiceRegistry::unregister` (`registry/mod.rs`): remove the provider
handle and its registration; fail with not-found when absent. -/
def unregister (st : RegistryState) (name : String) :
    RegistryState × Except String Unit :=
  match lookupKey st.services name with
  | none => (st, .error ("Service " ++ name ++ " not found"))
  | some _ =>
    ({ services := removeKey st.services name,
       metadata := removeKey st.metadata name }, .ok ())

/-- Rust `ServiceRegistry::get_service` (`registry/mod.rs`). -/
def getService (st : RegistryState) (name : String) : Except String Provider :=
  match lookupKey st.services name with
  | some p => .ok p
  | none => .error ("Service " ++ name ++ " not found")

/-- Rust `ServiceRegistry::execute` (`registry/mod.rs`): look the provider up,
run its `execute`; on a provider error set that registration's status to
Error and record the message before propagating; on an `Ok` result whose
`success` flag is true reset the status to Active and clear the error;
on an `Ok` result with `success = false` leave the metadata untouched. -/
def execute (st : RegistryState) (service_name : String)
    (command : ServiceCommand) : RegistryState × Except String ServiceResult :=
  match lookupKey st.services service_name with
  | none => (st, .error ("Service " ++ service_name ++ " not found"))
  | some service =>
    match service.execute command with
    | .error e =>
      let md := updateValue st.metadata service_name
        (fun reg => { reg with status := .Error, last_error := some e })
      ({ st with metadata := md }, .error e)
    | .ok result =>
      if result.success then
        let md := updateValue st.metadata service_name
          (fun reg => { reg with status := .Active, last_error := none })
        ({ st with metadata := md }, .ok result)
      else
        (st, .ok result)

/-- One iteration of the loop in `ServiceRegistry::run_health_checks`
(`registry/mod.rs`): run one provider's `health_check`, stamp
`last_health_check` and update status/error exactly like `execute`
does, and record the outcome. -/
def healthStep (now : Nat)
    (acc : RegistryState × List (String × Except String Unit))
    (entry : String × Provider) :
    RegistryState × List (String × Except String Unit) :=
  let result := entry.2.healthCheck
  let md := updateValue acc.1.metadata entry.1 (fun reg =>
    match result with
    | .ok _ =>
      { reg with last_health_check := some now,
                 status := .Active, last_error := none }
    | .error e =>
      { reg with last_health_check := some now,
                 status := .Error, last_error := some e })
  ({ acc.1 with metadata := md }, acc.2 ++ [(entry.1, result)])

/-- Rust `ServiceRegistry::run_health_checks` (`registry/mod.rs`): iterate
`healthStep` over a snapshot of the provider handles. -/
def runHealthChecks (st : RegistryState) (now : Nat) :
    RegistryState × List (String × Except String Unit) :=
  st.services.foldl (healthStep now) (st, [])

/-- Rust `ServiceRegistry::find_by_capability` (`registry/mod.rs`): names of
all providers whose registered capability snapshot contains a capability
with the requested name, regardless of status. -/
def findByCapability (st : RegistryState) (capability_name : String) :
    List String :=
  (st.metadata.filter
    (fun p => p.2.capabilities.any (fun cap => cap.name = capability_name))).map
    (fun p => p.1)

/-- Rust `ServiceRegistry::get_status` (`registry/mod.rs`). -/
def getStatus (st : RegistryState) (name : String) :
    Except String ServiceRegistration :=
  match lookupKey st.metadata name with
  | some reg => .ok reg
  | none => .error ("Service " ++ name ++ " not found")

end ServiceRegistry

/-- Rust `ToolRequest` from `registry/router.rs`. -/
structure ToolRequest where
  tool : String
  args : Json

/-- Rust `RoutingStrategy` from `registry/router.rs` (`Direct(DirectRoute)`
carries no usable payload, so it is a plain constructor here). -/
inductive RoutingStrategy where
  | FirstMatch : RoutingStrategy
  | Broadcast : RoutingStrategy
  | Direct : RoutingStrategy
deriving DecidableEq

/-- Rust `RequestRouter` state from `registry/router.rs`; the shared
`Arc<ServiceRegistry>` is passed explicitly to each routing call. -/
structure RequestRouter where
  tool_mappings : List (String × String)
  default_strategy : RoutingStrategy

/-- Serde serialization of `ServiceResult` into a JSON value
(`#[serde(skip_serializing_if = "Option::is_none")]` on the three
optional fields, fields in declaration order). -/
def ServiceResult.toJson (r : ServiceResult) : Json :=
  .obj ([("success", .bool r.success)]
    ++ (match r.data with | some d => [("data", d)] | none => [])
    ++ (match r.error with | some e => [("error", .str e)] | none => [])
    ++ (match r.metadata with | some m => [("metadata", .obj m)] | none => []))

namespace RequestRouter

/-- Rust `RequestRouter::execute_on_service` (`registry/router.rs`): build the
`ServiceCommand` (with `store_result = Some(true)`) and delegate to
`ServiceRegistry::execute`. -/
def executeOnService (st : RegistryState) (service_name : String)
    (request : ToolRequest) (project_name : Option String)
    (role_id : Option String) (context : Option (List (String × Json))) :
    RegistryState × Except String ServiceResult :=
  ServiceRegistry.execute st service_name
    { tool := request.tool, args := request.args,
      project_name := project_name, role_id := role_id,
      context := context, store_result := some true }

/-- One step of the broadcast accumulation loop in
`RequestRouter::route_broadcast`: state, collected results, any-success
flag, and formatted error strings. -/
def broadcastStep (request : ToolRequest) (project_name : Option String)
    (role_id : Option String) (context : Option (List (String × Json)))
    (acc : RegistryState × List ServiceResult × Bool × List String)
    (service_name : String) :
    RegistryState × List ServiceResult × Bool × List String :=
  match executeOnService acc.1 service_name request project_name role_id context with
  | (st', .ok result) =>
    (st', acc.2.1 ++ [result], acc.2.2.1 || result.success, acc.2.2.2)
  | (st', .error e) =>
    (st', acc.2.1, acc.2.2.1, acc.2.2.2 ++ [service_name ++ ": " ++ e])

/-- Rust `RequestRouter::route_broadcast` (`registry/router.rs`): find all
capability-matching providers, fail when there are none, execute on each
sequentially, then aggregate results, errors and metadata. -/
def routeBroadcast (st : RegistryState) (request : ToolRequest)
    (project_name : Option String) (role_id : Option String)
    (context : Option (List (String × Json))) :
    RegistryState × Except String ServiceResult :=
  let services := ServiceRegistry.findByCapability st request.tool
  if services.isEmpty then
    (st, .error ("No service found for tool: " ++ request.tool))
  else
    let out := services.foldl
      (broadcastStep request project_name role_id context) (st, [], false, [])
    let all_results := out.2.1
    let any_success := out.2.2.1
    let errors := out.2.2.2
    if all_results.isEmpty && !errors.isEmpty then
      (out.1, .error ("All services failed: " ++ String.intercalate ", " errors))
    else
      (out.1, .ok
        { success := any_success,
          data := some (.obj
            [("results", .arr (all_results.map ServiceResult.toJson)),
             ("errors", .arr (errors.map Json.str))]),
          error := if errors.isEmpty then none
                   else some (String.intercalate ", " errors),
          metadata := some
            [("routing_strategy", .str "broadcast"),
             ("services_called", .num all_results.length)] })

/-- Rust `RequestRouter::route_first_match` (`registry/router.rs`). -/
def routeFirstMatch (st : RegistryState) (request : ToolRequest)
    (project_name : Option String) (role_id : Option String)
    (context : Option (List (String × Json))) :
    RegistryState × Except String ServiceResult :=
  let services := ServiceRegistry.findByCapability st request.tool
  match services with
  | [] => (st, .error ("No service found for tool: " ++ request.tool))
  | service_name :: _ =>
    executeOnService st service_name request project_name role_id context

/-- Rust `RequestRouter::route_request` (`registry/router.rs`): a direct tool
mapping, when present, is used unconditionally; otherwise dispatch on the
default strategy. -/
def routeRequest (router : RequestRouter) (st : RegistryState)
    (request : ToolRequest) (project_name : Option String)
    (role_id : Option String) (context : Option (List (String × Json))) :
    RegistryState × Except String ServiceResult :=
  match lookupKey router.tool_mappings request.tool with
  | some service_name =>
    executeOnService st service_name request project_name role_id context
  | none =>
    match router.default_strategy with
    | .FirstMatch => routeFirstMatch st request project_name role_id context
    | .Broadcast => routeBroadcast st request project_name role_id context
    | .Direct => (st, .error "Direct routing requires tool mapping")

end RequestRouter

/-! Wire-protocol types from `mpcm-server/src/protocol.rs`. -/

/-- Rust `ErrorResponse` from `protocol.rs`. -/
structure ErrorResponse where
  code : Int
  message : String

namespace ErrorResponse

/-- Rust `ErrorResponse::parse_error`. -/
def parseError (msg : String) : ErrorResponse :=
  { code := -32700, message := "Parse error: " ++ msg }

/-- Rust `ErrorResponse::invalid_request`. -/
def invalidRequest : ErrorResponse :=
  { code := -32600, message := "Invalid request" }

/-- Rust `ErrorResponse::method_not_found`. -/
def methodNotFound (method : String) : ErrorResponse :=
  { code := -32601, message := "Method not found: " ++ method }

/-- Rust `ErrorResponse::internal_error`. -/
def internalError (msg : String) : ErrorResponse :=
  { code := -32603, message := "Internal error: " ++ msg }

end ErrorResponse

/-- Rust `ServiceRequest` from `protocol.rs` (v1 wire format, mandatory id). -/
structure ServiceRequest where
  id : String
  method : String
  params : Json

/-- Rust `ServiceResponse` from `protocol.rs` (v1 wire format). -/
structure ServiceResponse where
  id : String
  result : Option Json
  error : Option ErrorResponse

/-- Rust `Request` from `protocol.rs` (v2 wire format, optional id/params). -/
structure Request where
  id : Option String
  method : String
  params : Option Json

/-- Rust `Response` from `protocol.rs` (v2 wire format; every field is skipped
by serde when `None`). -/
structure Response where
  id : Option String
  result : Option Json
  error : Option ErrorResponse

/-! Serialization: `serde_json::to_string` on the derived `Serialize`
instances — fields in declaration order, `None` fields skipped, strings
escaped per JSON (serde_json's escaping of quotes, backslashes, and
control characters). -/

/-- Lower-case hexadecimal digit, for `\u00XX` control-char escapes. -/
def hexDigit (n : Nat) : Char :=
  if n < 10 then Char.ofNat (48 + n) else Char.ofNat (87 + n)

/-- serde_json's escaping of a single character inside a JSON string. -/
def escapeJsonChar (c : Char) : String :=
  if c = '"' then "\\\""
  else if c = '\\' then "\\\\"
  else if c = Char.ofNat 8 then "\\b"
  else if c = Char.ofNat 12 then "\\f"
  else if c = '\n' then "\\n"
  else if c = '\r' then "\\r"
  else if c = '\t' then "\\t"
  else if c.toNat < 32 then
    "\\u00" ++ String.mk [hexDigit (c.toNat / 16), hexDigit (c.toNat % 16)]
  else String.mk [c]

/-- Render a JSON string literal with quotes and escapes. -/
def renderString (s : String) : String :=
  "\"" ++ String.join (s.data.map escapeJsonChar) ++ "\""

mutual

/-- Render a JSON value exactly as `serde_json::to_string` does
(no whitespace, object fields in stored order). -/
def renderJson : Json → String
  | .null => "null"
  | .bool b => if b then "true" else "false"
  | .num n => toString n
  | .str s => renderString s
  | .arr xs => "[" ++ renderJsonList xs ++ "]"
  | .obj fs => "\x7b" ++ renderJsonFields fs ++ "\x7d"

/-- Comma-separated rendering of array elements. -/
def renderJsonList : List Json → String
  | [] => ""
  | [x] => renderJson x
  | x :: y :: xs => renderJson x ++ "," ++ renderJsonList (y :: xs)

/-- Comma-separated rendering of object fields. -/
def renderJsonFields : List (String × Json) → String
  | [] => ""
  | [(k, v)] => renderString k ++ ":" ++ renderJson v
  | (k, v) :: f :: fs =>
    renderString k ++ ":" ++ renderJson v ++ "," ++ renderJsonFields (f :: fs)

end

/-- Serde serialization of `ErrorResponse` (fields `code`, `message`). -/
def ErrorResponse.render (e : ErrorResponse) : String :=
  "\x7b\"code\":" ++ toString e.code ++ ",\"message\":"
    ++ renderString e.message ++ "\x7d"

/-- Serde serialization of the v2 `Response`: fields `id`, `result`,
`error` in declaration order, each skipped when `None`. -/
def Response.render (r : Response) : String :=
  "\x7b" ++ String.intercalate ","
    ((match r.id with
      | some i => ["\"id\":" ++ renderString i]
      | none => []) ++
     (match r.result with
      | some v => ["\"result\":" ++ renderJson v]
      | none => []) ++
     (match r.error with
      | some e => ["\"error\":" ++ e.render]
      | none => [])) ++ "\x7d"

/-! The v1 connection server, `mpcm-server/src/server.rs`. -/

/-- Rust `MAX_MESSAGE_SIZE` from `server.rs` (10 MB). -/
def MAX_MESSAGE_SIZE : Nat := 10 * 1024 * 1024

/-- Outcome of one `timeout(DEFAULT_TIMEOUT, reader.read_line(..))` call
inside `handle_connection` (`server.rs`). A successful read carries the
line's contents; `read_line` returning `Ok(0)` (end of stream) is the
empty line. -/
inductive ReadEvent where
  | line : String → ReadEvent
  | readFailed : ReadEvent
  | timedOut : ReadEvent

/-- The per-connection loop of `handle_connection` (`server.rs`), mapping
the sequence of read outcomes to the sequence of responses written back.
`process` stands for the parse-and-dispatch block (lines 150–194:
`parse_message`, `handlers::handle_request` against the external storage
collaborator, and conversion back to a `ServiceResponse`), which is only
reached for a message that passed the size check. The loop ends (the
connection closes) exactly when the returned list stops being produced:
on end-of-stream, read error, or timeout. An oversized message produces
an invalid-request response and the loop `continue`s. -/
def handleConnection (process : String → ServiceResponse) :
    List ReadEvent → List ServiceResponse
  | [] => []
  | .readFailed :: _ => []
  | .timedOut :: _ =>
    [{ id := "", result := none,
       error := some (ErrorResponse.internalError "Request timeout") }]
  | .line msg :: rest =>
    if msg.utf8ByteSize = 0 then []
    else if msg.utf8ByteSize > MAX_MESSAGE_SIZE then
      { id := "", result := none,
        error := some ErrorResponse.invalidRequest }
        :: handleConnection process rest
    else
      process msg :: handleConnection process rest

/-! The v2 connection server, `mpcm-server/src/server_v2.rs` with
`mpcm-server/src/handlers_v2.rs`. -/

/-- Rust `str::contains`: the pattern occurs as a contiguous substring. -/
def strContains (s pat : String) : Bool :=
  decide (pat.data <:+: s.data)

namespace HandlersV2

/-- Rust `handlers_v2::error_codes::METHOD_NOT_FOUND`. -/
def methodNotFoundCode : Int := -32601

/-- Rust `handlers_v2::error_codes::INTERNAL_ERROR`. -/
def internalErrorCode : Int := -32603

/-- The method table of `handlers_v2::handle_request`. -/
def methodTable : List String :=
  ["store_context", "search_context", "get_project_context",
   "list_projects", "update_project_status"]

/-- Rust `handlers_v2::handle_request`: dispatch on the method name. The five
known methods deserialize their params and call the external storage
collaborator — modelled by the `storage` argument, which may return a
value or an error string; any unknown method fails with
`"Method not found: <method>"` before storage is consulted. -/
def handleRequest (storage : String → Json → Except String Json)
    (method : String) (params : Json) : Except String Json :=
  if method ∈ methodTable then storage method params
  else .error ("Method not found: " ++ method)

end HandlersV2

/-- Rust `process_request` (`server_v2.rs`) after a successful parse of the
incoming line into a `Request` (JSON decoding itself is the external
serde collaborator): dispatch via `handlers_v2::handle_request`; a
handler error whose message contains `"not found"` becomes a `-32601`
response, any other error a `-32603` response, each echoing the
request's id. -/
def processRequest (storage : String → Json → Except String Json)
    (request : Request) : Response :=
  match HandlersV2.handleRequest storage request.method
      (request.params.getD Json.null) with
  | .ok result => { id := request.id, result := some result, error := none }
  | .error e =>
    if strContains e "not found" then
      { id := request.id, result := none,
        error := some { code := HandlersV2.methodNotFoundCode, message := e } }
    else
      { id := request.id, result := none,
        error := some { code := HandlersV2.internalErrorCode, message := e } }

/-! ### Association-list lemmas -/

theorem lookupKey_updateValue {α : Type} (l : List (String × α)) (k : String)
    (f : α → α) : lookupKey (updateValue l k f) k = (lookupKey l k).map f := by
  induction l with
  | nil => rfl
  | cons p rest ih =>
    by_cases h : p.1 = k
    · simp [updateValue, lookupKey, h]
    · simp only [updateValue, List.map_cons, if_neg h]
      simpa [lookupKey, h] using ih

theorem lookupKey_updateValue_ne {α : Type} (l : List (String × α))
    (k k' : String) (f : α → α) (hne : k' ≠ k) :
    lookupKey (updateValue l k f) k' = lookupKey l k' := by
  induction l with
  | nil => rfl
  | cons p rest ih =>
    simp only [updateValue, List.map_cons] at ih ⊢
    by_cases h : p.1 = k
    · have hp : p.1 ≠ k' := by rw [h]; exact Ne.symm hne
      simp only [if_pos h, lookupKey, if_neg hp]
      exact ih
    · simp only [if_neg h, lookupKey]
      by_cases h' : p.1 = k'
      · simp [if_pos h']
      · simp only [if_neg h']
        exact ih

theorem map_fst_updateValue {α : Type} (l : List (String × α)) (k : String)
    (f : α → α) : (updateValue l k f).map Prod.fst = l.map Prod.fst := by
  induction l with
  | nil => rfl
  | cons p rest ih =>
    by_cases h : p.1 = k <;> simp [updateValue, h] <;> simpa [updateValue] using ih

theorem map_fst_removeKey {α : Type} (l : List (String × α)) (k : String) :
    (removeKey l k).map Prod.fst = (l.map Prod.fst).filter (fun s => s ≠ k) := by
  induction l with
  | nil => rfl
  | cons p rest ih =>
    by_cases h : p.1 = k <;> simp [removeKey, List.filter_cons, h] at ih ⊢ <;>
      simpa [removeKey] using ih

/-! ### Concrete test fixtures used by witnesses and counterexamples -/

namespace Fixtures

def echoCap : ServiceCapability :=
  { name := "echo", description := "echo capability",
    input_schema := none, output_schema := none }

def okResult : ServiceResult :=
  { success := true, data := some (.str "ok"), error := none, metadata := none }

def softFailResult : ServiceResult :=
  { success := false, data := none, error := some "soft failure",
    metadata := none }

/-- A provider whose `execute` always returns a successful result. -/
def alpha : Provider :=
  { name := "alpha", description := "always succeeds", initResult := .ok (),
    capResult := .ok [echoCap], execute := fun _ => .ok okResult,
    healthCheck := .ok () }

/-- A provider whose `execute` always raises the error `"boom"`. -/
def beta : Provider :=
  { name := "beta", description := "always raises", initResult := .ok (),
    capResult := .ok [echoCap], execute := fun _ => .error "boom",
    healthCheck := .ok () }

/-- A provider whose `execute` reports a soft failure (`Ok` result with
`success = false`). -/
def softy : Provider :=
  { name := "softy", description := "soft failure", initResult := .ok (),
    capResult := .ok [echoCap], execute := fun _ => .ok softFailResult,
    healthCheck := .ok () }

/-- A provider that raises on tool `"fail"` and succeeds otherwise. -/
def flaky : Provider :=
  { name := "flaky", description := "fails on tool fail",
    initResult := .ok (), capResult := .ok [echoCap],
    execute := fun cmd =>
      if cmd.tool = "fail" then .error "boom" else .ok okResult,
    healthCheck := .ok () }

/-- A provider whose initialization hook errors. -/
def badInit : Provider :=
  { name := "badinit", description := "init fails",
    initResult := .error "init boom", capResult := .ok [],
    execute := fun _ => .error "unreachable", healthCheck := .ok () }

/-- A fresh Active registration as `register` creates it at instant 0. -/
def regOf (p : Provider) (caps : List ServiceCapability) :
    ServiceRegistration :=
  { name := p.name, capabilities := caps, status := .Active,
    last_error := none, registered_at := 0, last_health_check := none }

def emptyState : RegistryState := { services := [], metadata := [] }

/-- Providers `alpha` and `beta` registered, both advertising capability `"echo"`. -/
def pairState : RegistryState :=
  { services := [("alpha", alpha), ("beta", beta)],
    metadata := [("alpha", regOf alpha [echoCap]),
                 ("beta", regOf beta [echoCap])] }

/-- Only `flaky` registered. -/
def flakyState : RegistryState :=
  { services := [("flaky", flaky)],
    metadata := [("flaky", regOf flaky [echoCap])] }

/-- Only `softy` registered. -/
def softyState : RegistryState :=
  { services := [("softy", softy)],
    metadata := [("softy", regOf softy [echoCap])] }

def cmd (tool : String) : ServiceCommand :=
  { tool := tool, args := .null, project_name := none, role_id := none,
    context := none, store_result := none }

def echoReq : ToolRequest := { tool := "echo", args := .null }

def deployCap : ServiceCapability :=
  { name := "deploy", description := "deploy capability",
    input_schema := none, output_schema := none }

def betaHandled : ServiceResult :=
  { success := true, data := some (.str "beta handled"), error := none,
    metadata := none }

/-- A provider named `"alpha"` advertising capability `"deploy"`. -/
def alphaDeploy : Provider :=
  { name := "alpha", description := "also advertises deploy",
    initResult := .ok (), capResult := .ok [deployCap],
    execute := fun _ => .ok
      { success := true, data := some (.str "alpha handled"),
        error := none, metadata := none },
    healthCheck := .ok () }

/-- A provider named `"beta"` that does not advertise `"deploy"`. -/
def betaDeploy : Provider :=
  { name := "beta", description := "mapped deploy target",
    initResult := .ok (), capResult := .ok [],
    execute := fun _ => .ok betaHandled, healthCheck := .ok () }

/-- Providers `alphaDeploy` and `betaDeploy` registered; only `alpha` advertises
the `"deploy"` capability. -/
def deployState : RegistryState :=
  { services := [("alpha", alphaDeploy), ("beta", betaDeploy)],
    metadata := [("alpha", regOf alphaDeploy [deployCap]),
                 ("beta", regOf betaDeploy [])] }

/-- A router mapping tool `"deploy"` directly to provider `"beta"`,
with `FirstMatch` as the default strategy. -/
def deployRouter : RequestRouter :=
  { tool_mappings := [("deploy", "beta")],
    default_strategy := .FirstMatch }

def deployReq : ToolRequest := { tool := "deploy", args := .null }

/-- The aggregate result `route_broadcast` produces on `pairState` for
tool `"echo"`: `alpha` returns a successful result, `beta` raises
`"boom"`. -/
def echoAggregate : ServiceResult :=
  { success := true,
    data := some (.obj
      [("results", .arr [.obj [("success", .bool true), ("data", .str "ok")]]),
       ("errors", .arr [.str "beta: boom"])]),
    error := some "beta: boom",
    metadata := some [("routing_strategy", .str "broadcast"),
                      ("services_called", .num 1)] }

/-- A router with no direct mappings whose default strategy is
`Broadcast`. -/
def broadcastRouter : RequestRouter :=
  { tool_mappings := [], default_strategy := .Broadcast }

end Fixtures

/-! ### Claim theorems -/

/-- Claim C7 (lookup-failure purity): `ServiceRegistry::execute` on a
provider name not present in the registry fails with the not-found error
and returns the registry state exactly unchanged, so every provider's
Registration (status, lastError, timestamps) is the same after the failed
call as before it. -/
theorem execute_unknown_provider_pure (st : RegistryState) (name : String)
    (command : ServiceCommand) (h : lookupKey st.services name = none) :
    ServiceRegistry.execute st name command =
      (st, .error ("Service " ++ name ++ " not found")) := by
  simp [ServiceRegistry.execute, h]

/-- Witness for `execute_unknown_provider_pure`: executing on the
unregistered name `"ghost"` fails with not-found and leaves the state
untouched. -/
theorem execute_unknown_provider_pure_witness :
    lookupKey Fixtures.pairState.services "ghost" = none ∧
    ServiceRegistry.execute Fixtures.pairState "ghost" (Fixtures.cmd "echo") =
      (Fixtures.pairState, .error "Service ghost not found") :=
  ⟨rfl, execute_unknown_provider_pure _ _ _ rfl⟩

/-- Claim C9 (soft-failure frame effect): when a registered provider's
`execute` returns `Ok` with a result whose `success` flag is false,
`ServiceRegistry::execute` hands that result to the caller and returns
the state exactly unchanged — no status transition, no `last_error`
update. -/
theorem execute_soft_failure_frame (st : RegistryState) (name : String)
    (p : Provider) (command : ServiceCommand) (r : ServiceResult)
    (hp : lookupKey st.services name = some p)
    (hx : p.execute command = .ok r) (hs : r.success = false) :
    ServiceRegistry.execute st name command = (st, .ok r) := by
  simp [ServiceRegistry.execute, hp, hx, hs]

/-- Witness for `execute_soft_failure_frame`: the `softy` provider's
soft failure flows through with the registry state unchanged. -/
theorem execute_soft_failure_frame_witness :
    ServiceRegistry.execute Fixtures.softyState "softy" (Fixtures.cmd "echo") =
      (Fixtures.softyState, .ok Fixtures.softFailResult) :=
  execute_soft_failure_frame _ _ Fixtures.softy _ _ rfl rfl rfl

/-- Claim C1 (execute status tracking): for a registered provider, a
provider error sets that Registration's status to `Error`, records the
error string in `last_error` and propagates the error; a successful
result (success flag true) resets the status to `Active` and clears
`last_error`, whatever the prior registration contents were. -/
theorem execute_status_tracking (st : RegistryState) (name : String)
    (p : Provider) (hp : lookupKey st.services name = some p) :
    (∀ command e reg, p.execute command = .error e →
      lookupKey st.metadata name = some reg →
      (ServiceRegistry.execute st name command).2 = .error e ∧
      lookupKey (ServiceRegistry.execute st name command).1.metadata name =
        some { reg with status := .Error, last_error := some e }) ∧
    (∀ command r reg, p.execute command = .ok r → r.success = true →
      lookupKey st.metadata name = some reg →
      (ServiceRegistry.execute st name command).2 = .ok r ∧
      lookupKey (ServiceRegistry.execute st name command).1.metadata name =
        some { reg with status := .Active, last_error := none }) := by
  constructor
  · intro command e reg hx hreg
    constructor
    · simp [ServiceRegistry.execute, hp, hx]
    · simp [ServiceRegistry.execute, hp, hx, lookupKey_updateValue, hreg]
  · intro command r reg hx hs hreg
    constructor
    · simp [ServiceRegistry.execute, hp, hx, hs]
    · simp [ServiceRegistry.execute, hp, hx, hs, lookupKey_updateValue, hreg]

/-- Witness for `execute_status_tracking`: the `flaky` provider starts
Active, a failing call moves its registration to `Error` with
`last_error = some "boom"`, and the next successful call moves it back to
`Active` with `last_error` cleared. -/
theorem execute_status_tracking_witness :
    lookupKey Fixtures.flakyState.metadata "flaky" =
      some { name := "flaky", capabilities := [Fixtures.echoCap],
             status := .Active, last_error := none, registered_at := 0,
             last_health_check := none } ∧
    ((ServiceRegistry.execute Fixtures.flakyState "flaky"
        (Fixtures.cmd "fail")).2 = .error "boom" ∧
      lookupKey (ServiceRegistry.execute Fixtures.flakyState "flaky"
        (Fixtures.cmd "fail")).1.metadata "flaky" =
        some { name := "flaky", capabilities := [Fixtures.echoCap],
               status := .Error, last_error := some "boom",
               registered_at := 0, last_health_check := none }) ∧
    ((ServiceRegistry.execute (ServiceRegistry.execute Fixtures.flakyState
        "flaky" (Fixtures.cmd "fail")).1 "flaky" (Fixtures.cmd "echo")).2 =
        .ok Fixtures.okResult ∧
      lookupKey (ServiceRegistry.execute (ServiceRegistry.execute
        Fixtures.flakyState "flaky" (Fixtures.cmd "fail")).1 "flaky"
        (Fixtures.cmd "echo")).1.metadata "flaky" =
        some { name := "flaky", capabilities := [Fixtures.echoCap],
               status := .Active, last_error := none, registered_at := 0,
               last_health_check := none }) :=
  ⟨rfl,
   (execute_status_tracking Fixtures.flakyState "flaky" Fixtures.flaky
     rfl).1 (Fixtures.cmd "fail") "boom" _ rfl rfl,
   (execute_status_tracking (ServiceRegistry.execute Fixtures.flakyState
       "flaky" (Fixtures.cmd "fail")).1 "flaky" Fixtures.flaky rfl).2
     (Fixtures.cmd "echo") Fixtures.okResult _ rfl rfl rfl⟩

/-- Claim C3 (registration atomicity): a duplicate name fails with the
already-registered error and returns the state unchanged; a failing
initialization hook aborts registration with the hook's error and the
state unchanged; and a successful registration stores the provider
together with a fresh Active registration stamped `now` and no error. -/
theorem register_atomicity (st : RegistryState) (p : Provider) (now : Nat) :
    ((lookupKey st.services p.name).isSome = true →
      ServiceRegistry.register st p now =
        (st, .error ("Service " ++ p.name ++ " is already registered"))) ∧
    (∀ e, lookupKey st.services p.name = none → p.initResult = .error e →
      ServiceRegistry.register st p now = (st, .error e)) ∧
    (∀ caps, lookupKey st.services p.name = none → p.initResult = .ok () →
      p.capResult = .ok caps →
      ServiceRegistry.register st p now =
        ({ services := st.services ++ [(p.name, p)],
           metadata := st.metadata ++ [(p.name,
             { name := p.name, capabilities := caps, status := .Active,
               last_error := none, registered_at := now,
               last_health_check := none })] },
         .ok ())) := by
  refine ⟨?_, ?_, ?_⟩
  · intro h
    simp [ServiceRegistry.register, h]
  · intro e hnone hinit
    simp [ServiceRegistry.register, hnone, hinit]
  · intro caps hnone hinit hcaps
    simp [ServiceRegistry.register, hnone, hinit, hcaps]

/-- Witness for `register_atomicity`: re-registering `"alpha"` fails with
already-registered and keeps the state; registering the provider with a
failing init hook aborts with its error and keeps the state; registering
`alpha` into the empty registry stores it with a fresh Active
registration stamped at instant 7. -/
theorem register_atomicity_witness :
    ServiceRegistry.register Fixtures.pairState Fixtures.alpha 5 =
      (Fixtures.pairState, .error "Service alpha is already registered") ∧
    ServiceRegistry.register Fixtures.emptyState Fixtures.badInit 5 =
      (Fixtures.emptyState, .error "init boom") ∧
    ServiceRegistry.register Fixtures.emptyState Fixtures.alpha 7 =
      ({ services := [("alpha", Fixtures.alpha)],
         metadata := [("alpha",
           { name := "alpha", capabilities := [Fixtures.echoCap],
             status := .Active, last_error := none, registered_at := 7,
             last_health_check := none })] },
       .ok ()) :=
  ⟨(register_atomicity Fixtures.pairState Fixtures.alpha 5).1 rfl,
   (register_atomicity Fixtures.emptyState Fixtures.badInit 5).2.1
     "init boom" rfl rfl,
   (register_atomicity Fixtures.emptyState Fixtures.alpha 7).2.2
     [Fixtures.echoCap] rfl rfl rfl⟩

/-- The provider map and the Registration metadata map hold exactly the
same provider names, in the same order. -/
def RegistryState.namesAligned (st : RegistryState) : Prop :=
  st.services.map Prod.fst = st.metadata.map Prod.fst

theorem healthStep_foldl_aligned (now : Nat)
    (l : List (String × Provider))
    (acc : RegistryState × List (String × Except String Unit))
    (h : acc.1.namesAligned) :
    (l.foldl (ServiceRegistry.healthStep now) acc).1.namesAligned := by
  induction l generalizing acc with
  | nil => exact h
  | cons e rest ih =>
    apply ih
    show RegistryState.namesAligned
      { acc.1 with metadata := updateValue acc.1.metadata e.1 _ }
    unfold RegistryState.namesAligned
    rw [map_fst_updateValue]
    exact h

/-- Claim C10 (map alignment invariant): if the provider map and the
metadata map hold the same provider names, they still do after any of
`register`, `unregister`, `execute`, or `run_health_checks` completes,
on every return path. -/
theorem registry_maps_aligned (st : RegistryState) (p : Provider)
    (now ts : Nat) (name : String) (command : ServiceCommand)
    (h : st.namesAligned) :
    (ServiceRegistry.register st p now).1.namesAligned ∧
    (ServiceRegistry.unregister st name).1.namesAligned ∧
    (ServiceRegistry.execute st name command).1.namesAligned ∧
    (ServiceRegistry.runHealthChecks st ts).1.namesAligned := by
  refine ⟨?_, ?_, ?_, ?_⟩
  · unfold ServiceRegistry.register
    cases hs : (lookupKey st.services p.name).isSome with
    | true => simpa [hs] using h
    | false =>
      cases hi : p.initResult with
      | error e => simpa [hs, hi] using h
      | ok u =>
        cases hc : p.capResult with
        | error e => simpa [hs, hi, hc] using h
        | ok caps =>
          simp only [hs, hi, hc, Bool.false_eq_true, if_false]
          unfold RegistryState.namesAligned at h ⊢
          simp [List.map_append, h]
  · unfold ServiceRegistry.unregister
    cases hs : lookupKey st.services name with
    | none => simpa [hs] using h
    | some q =>
      unfold RegistryState.namesAligned at h ⊢
      simp [map_fst_removeKey, h]
  · unfold ServiceRegistry.execute
    cases hs : lookupKey st.services name with
    | none => simpa [hs] using h
    | some q =>
      cases hx : q.execute command with
      | error e =>
        unfold RegistryState.namesAligned at h ⊢
        simp [hx, map_fst_updateValue, h]
      | ok r =>
        cases hr : r.success with
        | false => simpa [hx, hr] using h
        | true =>
          unfold RegistryState.namesAligned at h ⊢
          simp [hx, hr, map_fst_updateValue, h]
  · exact healthStep_foldl_aligned ts st.services (st, []) h

/-- Witness for `registry_maps_aligned`: starting from the two-provider
registry (whose maps agree), every operation leaves the two maps holding
the same names. -/
theorem registry_maps_aligned_witness :
    (ServiceRegistry.register Fixtures.pairState Fixtures.softy
      3).1.namesAligned ∧
    (ServiceRegistry.unregister Fixtures.pairState "beta").1.namesAligned ∧
    (ServiceRegistry.execute Fixtures.pairState "beta"
      (Fixtures.cmd "echo")).1.namesAligned ∧
    (ServiceRegistry.runHealthChecks Fixtures.pairState 9).1.namesAligned :=
  registry_maps_aligned Fixtures.pairState Fixtures.softy 3 9 "beta"
    (Fixtures.cmd "echo") rfl

/-- Claim C6 (direct mapping precedence): whenever the router's direct
tool→provider table has an entry for the requested tool, `route_request`
executes on that mapped provider only — for every registry state and
every default strategy, so the mapping wins even when other registered
providers advertise a capability with that tool name. -/
theorem direct_mapping_precedence (router : RequestRouter)
    (st : RegistryState) (request : ToolRequest)
    (project_name role_id : Option String)
    (context : Option (List (String × Json))) (service_name : String)
    (h : lookupKey router.tool_mappings request.tool = some service_name) :
    RequestRouter.routeRequest router st request project_name role_id
        context =
      ServiceRegistry.execute st service_name
        { tool := request.tool, args := request.args,
          project_name := project_name, role_id := role_id,
          context := context, store_result := some true } := by
  simp [RequestRouter.routeRequest, RequestRouter.executeOnService, h]

/-- Witness for `direct_mapping_precedence`: with tool `"deploy"` mapped
to provider `"beta"`, the request routes to `beta` (returning beta's
distinctive result) even though provider `"alpha"` is the one advertising
capability `"deploy"`. -/
theorem direct_mapping_precedence_witness :
    ServiceRegistry.findByCapability Fixtures.deployState "deploy" =
      ["alpha"] ∧
    (RequestRouter.routeRequest Fixtures.deployRouter Fixtures.deployState
      Fixtures.deployReq none none none).2 = .ok Fixtures.betaHandled := by
  refine ⟨rfl, ?_⟩
  rw [direct_mapping_precedence Fixtures.deployRouter Fixtures.deployState
    Fixtures.deployReq none none none "beta" rfl]
  rfl

/-! ### Characterizing the broadcast aggregation loop -/

theorem execute_services_eq (st : RegistryState) (name : String)
    (command : ServiceCommand) :
    (ServiceRegistry.execute st name command).1.services = st.services := by
  unfold ServiceRegistry.execute
  cases hs : lookupKey st.services name with
  | none => simp
  | some q =>
    cases hx : q.execute command with
    | error e => simp [hx]
    | ok r => cases hr : r.success <;> simp [hx, hr]

theorem execute_snd_congr (st st' : RegistryState) (name : String)
    (command : ServiceCommand) (h : st.services = st'.services) :
    (ServiceRegistry.execute st name command).2 =
      (ServiceRegistry.execute st' name command).2 := by
  unfold ServiceRegistry.execute
  rw [h]
  cases hs : lookupKey st'.services name with
  | none => simp
  | some q =>
    cases hx : q.execute command with
    | error e => simp [hx]
    | ok r => cases hr : r.success <;> simp [hx, hr]

theorem executeOnService_services_eq (st : RegistryState) (name : String)
    (request : ToolRequest) (project_name role_id : Option String)
    (context : Option (List (String × Json))) :
    (RequestRouter.executeOnService st name request project_name role_id
      context).1.services = st.services :=
  execute_services_eq st name _

theorem executeOnService_snd_congr (st st' : RegistryState) (name : String)
    (request : ToolRequest) (project_name role_id : Option String)
    (context : Option (List (String × Json))) (h : st.services = st'.services) :
    (RequestRouter.executeOnService st name request project_name role_id
        context).2 =
      (RequestRouter.executeOnService st' name request project_name role_id
        context).2 :=
  execute_snd_congr st st' name _ h

/-- The aggregation loop of `route_broadcast`, characterized: the
service-handle map is untouched, the collected results are exactly the
`Ok` outcomes in order, the any-success flag is their disjunction, and
the error list holds one `"<name>: <error>"` entry per raised outcome. -/
theorem broadcast_foldl_spec (request : ToolRequest)
    (project_name role_id : Option String)
    (context : Option (List (String × Json))) (names : List String)
    (st : RegistryState) (res0 : List ServiceResult) (b0 : Bool)
    (errs0 : List String) :
    (names.foldl
        (RequestRouter.broadcastStep request project_name role_id context)
        (st, res0, b0, errs0)).1.services = st.services ∧
    (names.foldl
        (RequestRouter.broadcastStep request project_name role_id context)
        (st, res0, b0, errs0)).2.1 =
      res0 ++ names.filterMap (fun n =>
        (RequestRouter.executeOnService st n request project_name role_id
          context).2.toOption) ∧
    (names.foldl
        (RequestRouter.broadcastStep request project_name role_id context)
        (st, res0, b0, errs0)).2.2.1 =
      (b0 || (names.filterMap (fun n =>
        (RequestRouter.executeOnService st n request project_name role_id
          context).2.toOption)).any (fun r => r.success)) ∧
    (names.foldl
        (RequestRouter.broadcastStep request project_name role_id context)
        (st, res0, b0, errs0)).2.2.2 =
      errs0 ++ names.filterMap (fun n =>
        match (RequestRouter.executeOnService st n request project_name
          role_id context).2 with
        | .error e => some (n ++ ": " ++ e)
        | .ok _ => none) := by
  induction names generalizing st res0 b0 errs0 with
  | nil => simp
  | cons n rest ih =>
    rcases hE : RequestRouter.executeOnService st n request project_name
      role_id context with ⟨st', out⟩
    have hsv : st'.services = st.services := by
      have := executeOnService_services_eq st n request project_name
        role_id context
      rw [hE] at this
      exact this
    have hfixO : (fun m => (RequestRouter.executeOnService st' m request
        project_name role_id context).2.toOption) =
        (fun m => (RequestRouter.executeOnService st m request project_name
          role_id context).2.toOption) :=
      funext fun m => by
        rw [executeOnService_snd_congr st' st m request project_name role_id
          context hsv]
    have hfixE : (fun m =>
        match (RequestRouter.executeOnService st' m request project_name
          role_id context).2 with
        | .error e => some (m ++ ": " ++ e)
        | .ok _ => none) =
        (fun m =>
        match (RequestRouter.executeOnService st m request project_name
          role_id context).2 with
        | .error e => some (m ++ ": " ++ e)
        | .ok _ => none) :=
      funext fun m => by
        rw [executeOnService_snd_congr st' st m request project_name role_id
          context hsv]
    have hout : (RequestRouter.executeOnService st n request project_name
        role_id context).2 = out := by rw [hE]
    cases out with
    | ok r =>
      have hstep : RequestRouter.broadcastStep request project_name role_id
          context (st, res0, b0, errs0) n =
          (st', res0 ++ [r], b0 || r.success, errs0) := by
        unfold RequestRouter.broadcastStep
        rw [hE]
      rcases ih st' (res0 ++ [r]) (b0 || r.success) errs0 with
        ⟨ih1, ih2, ih3, ih4⟩
      rw [hfixO] at ih2 ih3
      rw [hfixE] at ih4
      refine ⟨?_, ?_, ?_, ?_⟩
      · rw [List.foldl_cons, hstep, ih1, hsv]
      · rw [List.foldl_cons, hstep, ih2, List.filterMap_cons, hout]
        simp [Except.toOption]
      · rw [List.foldl_cons, hstep, ih3, List.filterMap_cons, hout]
        simp [Except.toOption, Bool.or_assoc]
      · rw [List.foldl_cons, hstep, ih4, List.filterMap_cons, hout]
    | error e =>
      have hstep : RequestRouter.broadcastStep request project_name role_id
          context (st, res0, b0, errs0) n =
          (st', res0, b0, errs0 ++ [n ++ ": " ++ e]) := by
        unfold RequestRouter.broadcastStep
        rw [hE]
      rcases ih st' res0 b0 (errs0 ++ [n ++ ": " ++ e]) with
        ⟨ih1, ih2, ih3, ih4⟩
      rw [hfixO] at ih2 ih3
      rw [hfixE] at ih4
      refine ⟨?_, ?_, ?_, ?_⟩
      · rw [List.foldl_cons, hstep, ih1, hsv]
      · rw [List.foldl_cons, hstep, ih2, List.filterMap_cons, hout]
        simp [Except.toOption]
      · rw [List.foldl_cons, hstep, ih3, List.filterMap_cons, hout]
        simp [Except.toOption]
      · rw [List.foldl_cons, hstep, ih4, List.filterMap_cons, hout]
        simp

/-- Claim C2, amended (broadcast aggregation): under the Broadcast
strategy with no direct mapping, zero matching providers fail with the
no-provider error; otherwise the aggregate's success flag is true iff at
least one execution returned a successful result, its data document
holds the results array (one entry per provider whose execute returned a
result, in invocation order) and the error list (one `"name: error"`
entry per provider whose execute raised), its metadata records the
`broadcast` strategy and `services_called` = the number of collected
results (not the number of providers invoked), and when every execution
raised, a single aggregated error joining all provider messages is
returned. -/
theorem broadcast_aggregation (router : RequestRouter) (st : RegistryState)
    (request : ToolRequest) (project_name role_id : Option String)
    (context : Option (List (String × Json)))
    (hstrat : router.default_strategy = .Broadcast)
    (hmap : lookupKey router.tool_mappings request.tool = none) :
    (ServiceRegistry.findByCapability st request.tool = [] →
      RequestRouter.routeRequest router st request project_name role_id
          context =
        (st, .error ("No service found for tool: " ++ request.tool))) ∧
    (∀ results errors,
      results = (ServiceRegistry.findByCapability st request.tool).filterMap
        (fun n => (RequestRouter.executeOnService st n request project_name
          role_id context).2.toOption) →
      errors = (ServiceRegistry.findByCapability st request.tool).filterMap
        (fun n =>
          match (RequestRouter.executeOnService st n request project_name
            role_id context).2 with
          | .error e => some (n ++ ": " ++ e)
          | .ok _ => none) →
      ServiceRegistry.findByCapability st request.tool ≠ [] →
      ((results.isEmpty && !errors.isEmpty) = true →
        (RequestRouter.routeRequest router st request project_name role_id
          context).2 =
          .error ("All services failed: " ++
            String.intercalate ", " errors)) ∧
      ((results.isEmpty && !errors.isEmpty) = false →
        (RequestRouter.routeRequest router st request project_name role_id
          context).2 =
          .ok { success := results.any (fun r => r.success),
                data := some (.obj
                  [("results", .arr (results.map ServiceResult.toJson)),
                   ("errors", .arr (errors.map Json.str))]),
                error := if errors.isEmpty then none
                         else some (String.intercalate ", " errors),
                metadata := some
                  [("routing_strategy", .str "broadcast"),
                   ("services_called", .num results.length)] })) := by
  have hroute : RequestRouter.routeRequest router st request project_name
      role_id context =
      RequestRouter.routeBroadcast st request project_name role_id context := by
    unfold RequestRouter.routeRequest
    rw [hmap, hstrat]
  constructor
  · intro hempty
    rw [hroute]
    unfold RequestRouter.routeBroadcast
    rw [hempty]
    rfl
  · intro results errors hres herrs hne
    have hfe : (ServiceRegistry.findByCapability st request.tool).isEmpty =
        false := by
      cases hfe : (ServiceRegistry.findByCapability st request.tool).isEmpty
      · rfl
      · exact absurd (List.isEmpty_iff.mp hfe) hne
    obtain ⟨h1, h2, h3, h4⟩ := broadcast_foldl_spec request project_name
      role_id context (ServiceRegistry.findByCapability st request.tool) st
      [] false []
    rw [List.nil_append] at h2 h4
    rw [Bool.false_or] at h3
    rw [← hres] at h2 h3
    rw [← herrs] at h4
    rw [hroute]
    unfold RequestRouter.routeBroadcast
    simp only [hfe, Bool.false_eq_true, if_false, h2, h3, h4]
    constructor
    · intro hcond
      simp [hcond]
    · intro hcond
      simp [hcond]

/-- Counterexample to claim C2 as stated: broadcasting tool `"echo"` over
the two advertising providers (`alpha` succeeds, `beta` raises) yields a
data document with only 1 result entry (not one per invoked provider)
next to 1 error entry, and metadata `services_called = 1` even though 2
providers were invoked. -/
theorem broadcast_metadata_counterexample :
    ServiceRegistry.findByCapability Fixtures.pairState "echo" =
      ["alpha", "beta"] ∧
    (RequestRouter.routeBroadcast Fixtures.pairState Fixtures.echoReq none
      none none).2 = .ok Fixtures.echoAggregate :=
  ⟨rfl, rfl⟩

/-- Witness for `broadcast_aggregation`: broadcasting with zero matching
providers fails with the no-provider error, and broadcasting over
`alpha` (success) and `beta` (raises) yields overall success with the
single collected result, the single error entry, and
`services_called = 1`. -/
theorem broadcast_aggregation_witness :
    RequestRouter.routeRequest Fixtures.broadcastRouter Fixtures.emptyState
      Fixtures.echoReq none none none =
      (Fixtures.emptyState, .error "No service found for tool: echo") ∧
    (RequestRouter.routeRequest Fixtures.broadcastRouter Fixtures.pairState
      Fixtures.echoReq none none none).2 = .ok Fixtures.echoAggregate := by
  constructor
  · exact (broadcast_aggregation Fixtures.broadcastRouter Fixtures.emptyState
      Fixtures.echoReq none none none rfl rfl).1 rfl
  · exact ((broadcast_aggregation Fixtures.broadcastRouter Fixtures.pairState
      Fixtures.echoReq none none none rfl rfl).2
      [Fixtures.okResult] ["beta: boom"] rfl rfl (by decide)).2 rfl

/-- Claim C8, amended (broadcast error field): an aggregate Result that
the broadcast route hands back carries an error message exactly when at
least one provider execution raised an error — independently of the
success flag, so `success = true` and a non-empty error message can
co-occur on a partial broadcast failure; the carried message is the join
of all raised provider errors. -/
theorem broadcast_error_field (router : RequestRouter) (st : RegistryState)
    (request : ToolRequest) (project_name role_id : Option String)
    (context : Option (List (String × Json))) (r : ServiceResult)
    (hstrat : router.default_strategy = .Broadcast)
    (hmap : lookupKey router.tool_mappings request.tool = none)
    (hok : (RequestRouter.routeRequest router st request project_name
      role_id context).2 = .ok r) :
    ∀ errors,
      errors = (ServiceRegistry.findByCapability st request.tool).filterMap
        (fun n =>
          match (RequestRouter.executeOnService st n request project_name
            role_id context).2 with
          | .error e => some (n ++ ": " ++ e)
          | .ok _ => none) →
      r.error = (if errors.isEmpty then none
                 else some (String.intercalate ", " errors)) ∧
      (r.error = none ↔ errors = []) := by
  intro errors herrs
  have hroute : RequestRouter.routeRequest router st request project_name
      role_id context =
      RequestRouter.routeBroadcast st request project_name role_id context := by
    unfold RequestRouter.routeRequest
    rw [hmap, hstrat]
  rw [hroute] at hok
  cases hfe : (ServiceRegistry.findByCapability st request.tool).isEmpty with
  | true =>
    unfold RequestRouter.routeBroadcast at hok
    rw [if_pos hfe] at hok
    exact absurd hok (by simp)
  | false =>
    obtain ⟨h1, h2, h3, h4⟩ := broadcast_foldl_spec request project_name
      role_id context (ServiceRegistry.findByCapability st request.tool) st
      [] false []
    rw [List.nil_append] at h2 h4
    rw [← herrs] at h4
    unfold RequestRouter.routeBroadcast at hok
    simp only [hfe, Bool.false_eq_true, if_false, h2, h4] at hok
    cases hcond : (((ServiceRegistry.findByCapability st
        request.tool).filterMap (fun n =>
          (RequestRouter.executeOnService st n request project_name role_id
            context).2.toOption)).isEmpty && !errors.isEmpty) with
    | true =>
      simp only [hcond, if_true] at hok
      exact absurd hok (by simp)
    | false =>
      simp only [hcond, Bool.false_eq_true, if_false] at hok
      have h6 := Except.ok.inj hok
      constructor
      · rw [← h6]
      · rw [← h6]
        cases he : errors.isEmpty with
        | true => simp [List.isEmpty_iff.mp he]
        | false =>
          have hnil : errors ≠ [] := by
            intro hnilx
            rw [hnilx] at he
            exact absurd he (by simp)
          simp [he, hnil]

/-- Counterexample to claim C8 as stated: the aggregate Result of a
broadcast over `alpha` (success) and `beta` (raises `"boom"`) has
`success = true` together with the non-empty error message
`"beta: boom"` — success and error co-occur. -/
theorem broadcast_exclusivity_counterexample :
    (RequestRouter.routeBroadcast Fixtures.pairState Fixtures.echoReq none
      none none).2.map (fun r => (r.success, r.error)) =
      Except.ok (true, some "beta: boom") :=
  rfl

/-- Witness for `broadcast_error_field`: on the partial-failure broadcast
the aggregate's error field is exactly the single joined provider error,
and it is `none` iff the raised-error list is empty (here it is not). -/
theorem broadcast_error_field_witness :
    Fixtures.echoAggregate.error =
      (if (["beta: boom"] : List String).isEmpty then none
       else some (String.intercalate ", " ["beta: boom"])) ∧
    (Fixtures.echoAggregate.error = none ↔ ["beta: boom"] = ([] : List String)) :=
  broadcast_error_field Fixtures.broadcastRouter Fixtures.pairState
    Fixtures.echoReq none none none Fixtures.echoAggregate rfl rfl rfl
    ["beta: boom"] rfl

/-! ### The v1 server's oversized-message branch -/

theorem utf8ByteSize_replicate (n : Nat) :
    (String.mk (List.replicate n 'a')).utf8ByteSize = n := by
  induction n with
  | zero => rfl
  | succ k ih =>
    have ih' : String.utf8ByteSize.go (List.replicate k 'a') = k := ih
    show String.utf8ByteSize.go (List.replicate (k + 1) 'a') = k + 1
    rw [List.replicate_succ]
    show String.utf8ByteSize.go (List.replicate k 'a') + 'a'.utf8Size = k + 1
    have ha : 'a'.utf8Size = 1 := rfl
    rw [ih', ha]

theorem handleConnection_oversized (process : String → ServiceResponse)
    (msg : String) (rest : List ReadEvent)
    (h : msg.utf8ByteSize > MAX_MESSAGE_SIZE) :
    handleConnection process (.line msg :: rest) =
      { id := "", result := none,
        error := some ErrorResponse.invalidRequest }
        :: handleConnection process rest := by
  have h0 : ¬ (msg.utf8ByteSize = 0) := by
    unfold MAX_MESSAGE_SIZE at h
    omega
  simp only [handleConnection, if_neg h0, if_pos h]

/-- A stand-in for the parse-and-dispatch block of `handle_connection`,
returning a fixed distinctive response. -/
def Fixtures.processStub : String → ServiceResponse :=
  fun _ => { id := "x", result := some (.str "handled"), error := none }

/-- A line one byte longer than `MAX_MESSAGE_SIZE`. -/
def Fixtures.bigLine : String :=
  String.mk (List.replicate (MAX_MESSAGE_SIZE + 1) 'a')

/-- Claim C4 (evaluated at the failing input): when `handle_connection`
reads a line exceeding `MAX_MESSAGE_SIZE` (here by one byte — a line the
reader has already read in full before the size check fires), it writes
the invalid-request error response and then `continue`s: the connection
stays open and the following message is processed normally, instead of
the connection being closed. -/
theorem oversized_message_not_terminal :
    Fixtures.bigLine.utf8ByteSize = MAX_MESSAGE_SIZE + 1 ∧
    handleConnection Fixtures.processStub
        [.line Fixtures.bigLine, .line "ping"] =
      [{ id := "", result := none,
         error := some ErrorResponse.invalidRequest },
       { id := "x", result := some (.str "handled"), error := none }] := by
  refine ⟨utf8ByteSize_replicate _, ?_⟩
  rw [handleConnection_oversized]
  · rfl
  · show Fixtures.bigLine.utf8ByteSize > MAX_MESSAGE_SIZE
    unfold Fixtures.bigLine
    rw [utf8ByteSize_replicate]
    omega

/-! ### The v2 server's unknown-method response -/

theorem strContains_method_not_found (method : String) :
    strContains ("Method not found: " ++ method) "not found" = true := by
  unfold strContains
  rw [decide_eq_true_eq]
  rw [String.data_append]
  have h1 : "not found".data <:+: "Method not found: ".data :=
    ⟨"Method ".data, ": ".data, by decide⟩
  exact h1.trans ⟨[], method.data, by simp⟩

/-- Claim C5 (unknown-method response): every successfully parsed request
whose method is not in the v2 method table gets a method-not-found
response (code `-32601`, message `"Method not found: <method>"`) with
the request's id echoed and no result; serialized, the request
`{"id":"1","method":"unknown_method","params":{}}` yields exactly the
response line
`{"id":"1","error":{"code":-32601,"message":"Method not found: unknown_method"}}`. -/
theorem unknown_method_response
    (storage : String → Json → Except String Json) (request : Request)
    (h : request.method ∉ HandlersV2.methodTable) :
    processRequest storage request =
      { id := request.id, result := none,
        error := some { code := -32601, message := "Method not found: " ++ request.method } } ∧
    (request.id = some "1" → request.method = "unknown_method" →
      (processRequest storage request).render =
        "\x7b\"id\":\"1\",\"error\":\x7b\"code\":-32601,\"message\":\"Method not found: unknown_method\"\x7d\x7d") := by
  have hdispatch : HandlersV2.handleRequest storage request.method
      (request.params.getD Json.null) =
      .error ("Method not found: " ++ request.method) := by
    unfold HandlersV2.handleRequest
    rw [if_neg (by simpa using h)]
  have hmain : processRequest storage request =
      { id := request.id, result := none,
        error := some { code := -32601, message := "Method not found: " ++ request.method } } := by
    unfold processRequest
    rw [hdispatch]
    have hsc := strContains_method_not_found request.method
    simp only [hsc, if_true]
    rfl
  refine ⟨hmain, ?_⟩
  intro hid hmethod
  rw [hmain, hid, hmethod]
  rfl

/-- Witness for `unknown_method_response`: the spec's end-to-end example,
with the method table missing `"unknown_method"` and any storage
behaviour. -/
theorem unknown_method_response_witness :
    processRequest (fun _ _ => .ok .null)
        { id := some "1", method := "unknown_method",
          params := some (.obj []) } =
      { id := some "1", result := none,
        error := some { code := -32601, message := "Method not found: unknown_method" } } ∧
    (processRequest (fun _ _ => .ok .null)
        { id := some "1", method := "unknown_method",
          params := some (.obj []) }).render =
      "\x7b\"id\":\"1\",\"error\":\x7b\"code\":-32601,\"message\":\"Method not found: unknown_method\"\x7d\x7d" :=
  ⟨(unknown_method_response (fun _ _ => .ok .null)
      { id := some "1", method := "unknown_method",
        params := some (.obj []) } (by decide)).1,
   (unknown_method_response (fun _ _ => .ok .null)
      { id := some "1", method := "unknown_method",
        params := some (.obj []) } (by decide)).2 rfl rfl⟩

end ShapeCore
